import Mathlib

/-! Verification development for the interface-statistics polling scripts
(SNMP / NETCONF benchmark monitors).

Shallow embedding conventions:
* Counter values travel through the Python scripts as decimal strings and are
  converted with `int(...)` / `str(...)` where arithmetic happens.  The model
  represents a counter by its numeric value (`ℕ`); the decimal-string form is
  modelled explicitly (`decRepr` / `decToNat?`) where the string itself matters
  (the telemetry envelope).
* Wall-clock timestamps are Python floats read from `time.time()`.  The model
  uses exact rationals (`ℚ`); Python's `int(x)` on a float truncates toward
  zero, modelled by `ratTrunc`.
* The per-interface previous-sample state (`self.prev_stats`,
  `self.prev_timestamp`) is modelled as one `Option (σ × ℚ)`: the two
  attributes are assigned together on every path of the source, and both start
  falsy (`{}` / `None`).  A present pair whose timestamp is the float `0.0` is
  still falsy in Python's `if self.prev_stats and self.prev_timestamp:` guard,
  so the guard is modelled as "pair present and timestamp nonzero".
-/

namespace IfStats

/-- Truncation of an exact rational toward zero: the model of Python's
`int(x)` applied to a (float) quotient. -/
def ratTrunc (q : ℚ) : ℤ := q.num.tdiv (q.den : ℤ)

theorem ratTrunc_intCast (z : ℤ) : ratTrunc (z : ℚ) = z := by
  unfold ratTrunc
  rw [Rat.intCast_num, Rat.intCast_den]
  exact Int.tdiv_one z

theorem ratTrunc_eq_of_eq_intCast (q : ℚ) (z : ℤ) (h : q = (z : ℚ)) :
    ratTrunc q = z := by
  rw [h, ratTrunc_intCast]

theorem ratTrunc_eq_floor_of_nonneg (q : ℚ) (h : 0 ≤ q) : ratTrunc q = ⌊q⌋ := by
  rw [Rat.floor_def]
  unfold ratTrunc
  exact Int.tdiv_eq_ediv (Rat.num_nonneg.mpr h) (Int.ofNat_nonneg q.den)

/-- Little-endian decimal digits of `n`, computed with explicit fuel so that
the definition reduces in the kernel.  `toDigitsRev n n` agrees with
`Nat.digits 10 n`. -/
def toDigitsRev : ℕ → ℕ → List ℕ
  | 0, _ => []
  | _ + 1, 0 => []
  | fuel + 1, n + 1 => ((n + 1) % 10) :: toDigitsRev fuel ((n + 1) / 10)

theorem toDigitsRev_eq_digits : ∀ n fuel, n ≤ fuel → toDigitsRev fuel n = Nat.digits 10 n := by
  intro n
  induction n using Nat.strongRecOn with
  | ind n ih =>
    intro fuel h
    match n, fuel with
    | 0, 0 => simp [toDigitsRev]
    | 0, f + 1 => simp [toDigitsRev]
    | m + 1, f + 1 =>
      rw [toDigitsRev, Nat.digits_def' (by norm_num : (1 : ℕ) < 10) (Nat.succ_pos m)]
      have hlt : (m + 1) / 10 < m + 1 := Nat.div_lt_self (Nat.succ_pos m) (by norm_num)
      exact congrArg _ (ih _ hlt f (by omega))

/-- Decimal rendering of a natural number: the model of Python's `str(n)`
for the nonnegative integers produced by the scripts. -/
def decRepr (n : ℕ) : String :=
  if n = 0 then "0" else String.mk ((toDigitsRev n n).reverse.map Nat.digitChar)

/-- Generic reader of a decimal string back to a number: the model of a
JSON-lines consumer applying `int(...)` to a string field. -/
def decToNat? (s : String) : Option ℕ :=
  if !s.data.isEmpty && s.data.all Char.isDigit then
    some (s.data.foldl (fun acc c => acc * 10 + (c.toNat - 48)) 0)
  else none

theorem digitChar_toNat_sub (d : ℕ) (h : d < 10) : (Nat.digitChar d).toNat - 48 = d := by
  interval_cases d <;> rfl

theorem digitChar_isDigit (d : ℕ) (h : d < 10) : (Nat.digitChar d).isDigit = true := by
  interval_cases d <;> rfl

theorem foldl_digitChars (ds : List ℕ) (hd : ∀ d ∈ ds, d < 10) :
    ((ds.reverse.map Nat.digitChar).foldl (fun acc c => acc * 10 + (c.toNat - 48)) 0) =
      Nat.ofDigits 10 ds := by
  induction ds with
  | nil => rfl
  | cons d tl ih =>
    have hdd : d < 10 := hd d (List.mem_cons_self d tl)
    have htl : ∀ x ∈ tl, x < 10 := fun x hx => hd x (List.mem_cons_of_mem d hx)
    rw [List.reverse_cons, List.map_append, List.foldl_append, ih htl]
    simp only [List.map_cons, List.map_nil, List.foldl_cons, List.foldl_nil]
    rw [digitChar_toNat_sub d hdd, Nat.ofDigits_cons]
    ring

theorem decToNat?_decRepr (n : ℕ) : decToNat? (decRepr n) = some n := by
  rcases eq_or_ne n 0 with rfl | hn
  · rfl
  · unfold decRepr decToNat?
    rw [if_neg hn]
    have hdig : toDigitsRev n n = Nat.digits 10 n := toDigitsRev_eq_digits n n le_rfl
    have hlt : ∀ d ∈ Nat.digits 10 n, d < 10 :=
      fun d hdm => Nat.digits_lt_base (by norm_num) hdm
    have hne : Nat.digits 10 n ≠ [] := Nat.digits_ne_nil_iff_ne_zero.mpr hn
    have hdata : (String.mk ((toDigitsRev n n).reverse.map Nat.digitChar)).data =
        (Nat.digits 10 n).reverse.map Nat.digitChar := by rw [hdig]
    rw [if_pos, hdata, foldl_digitChars _ hlt, Nat.ofDigits_digits]
    · rw [hdata, Bool.and_eq_true]
      refine And.intro ?_ ?_
      · simp [List.isEmpty_iff, hne]
      · rw [List.all_eq_true]
        intro c hc
        rw [List.mem_map] at hc
        obtain ⟨d, hdm, rfl⟩ := hc
        exact digitChar_isDigit d (hlt d (List.mem_reverse.mp hdm))

/-- Value of one field of an emitted JSON object.  Python `str` values
serialize as JSON strings, Python `int` values as JSON numbers; keeping the
distinction in the model lets the envelope theorems say which one the
scripts use for each field. -/
inductive JsonVal where
  | str (s : String)
  | num (n : ℤ)
deriving DecidableEq

/-- Canonical counter sample of the SNMP scripts: the `stats` dict built by
`SNMPMonitorEasy.get_interface_stats` (src/configs/if-stats-snmp-v2.py,
lines 65-105), fields in dict-insertion order, decimal strings modelled by
their numeric value. -/
structure Stats where
  inOctets : ℕ
  outOctets : ℕ
  inUnicastPackets : ℕ
  inMulticastPackets : ℕ
  inBroadcastPackets : ℕ
  outUnicastPackets : ℕ
  outMulticastPackets : ℕ
  outBroadcastPackets : ℕ
  inPackets : ℕ
  outPackets : ℕ
deriving DecidableEq

/-- Rate sample: the `rate` dict (`in-bps` / `out-bps` decimal strings,
possibly negative) of `calculate_traffic_rate`. -/
structure Rate where
  inBps : ℤ
  outBps : ℤ
deriving DecidableEq

/-- Telemetry envelope produced by `format_output`
(src/configs/if-stats-snmp-v2.py, lines 123-134).  The RFC3339 `time` string
is external datetime formatting and is not modelled; every other key of the
emitted JSON object is a field here.  `values` is the single-entry inner
mapping flattened to its key (`valuesKey`) and its field list. -/
structure TelemetryRecord where
  source : String
  subscriptionName : String
  timestamp : ℤ
  path : String
  valuesKey : String
  values : List (String × JsonVal)
deriving DecidableEq

namespace SnmpV2

/-! Embedding of src/configs/if-stats-snmp-v2.py (class `SNMPMonitorEasy`).
The SNMP session is modelled as `g : String → ℕ`, giving for each base OID
the numeric value that `get_snmp_value` returns for it (that helper already
degrades every error and the NOSUCHINSTANCE sentinel to `"0"`). -/

def oid_ifHCInOctets : String := ".1.3.6.1.2.1.31.1.1.1.6"

def oid_ifHCOutOctets : String := ".1.3.6.1.2.1.31.1.1.1.10"

def oid_ifHCInUcastPkts : String := ".1.3.6.1.2.1.31.1.1.1.7"

def oid_ifHCInMulticastPkts : String := ".1.3.6.1.2.1.31.1.1.1.8"

def oid_ifHCInBroadcastPkts : String := ".1.3.6.1.2.1.31.1.1.1.9"

def oid_ifHCOutUcastPkts : String := ".1.3.6.1.2.1.31.1.1.1.11"

def oid_ifHCOutMulticastPkts : String := ".1.3.6.1.2.1.31.1.1.1.12"

def oid_ifHCOutBroadcastPkts : String := ".1.3.6.1.2.1.31.1.1.1.13"

def oid_ifInOctets : String := ".1.3.6.1.2.1.2.2.1.10"

def oid_ifOutOctets : String := ".1.3.6.1.2.1.2.2.1.16"

def oid_ifInUcastPkts : String := ".1.3.6.1.2.1.2.2.1.11"

def oid_ifInMulticastPkts : String := ".1.3.6.1.2.1.2.2.1.12"

def oid_ifInBroadcastPkts : String := ".1.3.6.1.2.1.2.2.1.13"

def oid_ifOutUcastPkts : String := ".1.3.6.1.2.1.2.2.1.17"

def oid_ifOutMulticastPkts : String := ".1.3.6.1.2.1.2.2.1.18"

def oid_ifOutBroadcastPkts : String := ".1.3.6.1.2.1.2.2.1.19"

/-- Lines 65-105: reads the two high-capacity octet OIDs first; if either is
non-zero (source compares the returned string against `"0"`), reads the HC
packet-class counters, otherwise falls back to the legacy 32-bit table; then
recomputes the packet totals from the three sub-counts.  The second
component instruments the embedding with the list of base OIDs read, in
source order, so the theorems can state which counter table was exercised. -/
def get_interface_stats (g : String → ℕ) : Stats × List String :=
  if g oid_ifHCInOctets ≠ 0 ∨ g oid_ifHCOutOctets ≠ 0 then
    ({ inOctets := g oid_ifHCInOctets
       outOctets := g oid_ifHCOutOctets
       inUnicastPackets := g oid_ifHCInUcastPkts
       inMulticastPackets := g oid_ifHCInMulticastPkts
       inBroadcastPackets := g oid_ifHCInBroadcastPkts
       outUnicastPackets := g oid_ifHCOutUcastPkts
       outMulticastPackets := g oid_ifHCOutMulticastPkts
       outBroadcastPackets := g oid_ifHCOutBroadcastPkts
       inPackets := g oid_ifHCInUcastPkts + g oid_ifHCInMulticastPkts + g oid_ifHCInBroadcastPkts
       outPackets :=
         g oid_ifHCOutUcastPkts + g oid_ifHCOutMulticastPkts + g oid_ifHCOutBroadcastPkts },
     [oid_ifHCInOctets, oid_ifHCOutOctets, oid_ifHCInUcastPkts, oid_ifHCInMulticastPkts,
      oid_ifHCInBroadcastPkts, oid_ifHCOutUcastPkts, oid_ifHCOutMulticastPkts,
      oid_ifHCOutBroadcastPkts])
  else
    ({ inOctets := g oid_ifInOctets
       outOctets := g oid_ifOutOctets
       inUnicastPackets := g oid_ifInUcastPkts
       inMulticastPackets := g oid_ifInMulticastPkts
       inBroadcastPackets := g oid_ifInBroadcastPkts
       outUnicastPackets := g oid_ifOutUcastPkts
       outMulticastPackets := g oid_ifOutMulticastPkts
       outBroadcastPackets := g oid_ifOutBroadcastPkts
       inPackets := g oid_ifInUcastPkts + g oid_ifInMulticastPkts + g oid_ifInBroadcastPkts
       outPackets := g oid_ifOutUcastPkts + g oid_ifOutMulticastPkts + g oid_ifOutBroadcastPkts },
     [oid_ifHCInOctets, oid_ifHCOutOctets, oid_ifInOctets, oid_ifOutOctets, oid_ifInUcastPkts,
      oid_ifInMulticastPkts, oid_ifInBroadcastPkts, oid_ifOutUcastPkts, oid_ifOutMulticastPkts,
      oid_ifOutBroadcastPkts])

/-- Lines 107-121 (`calculate_traffic_rate(self, current_stats, current_time)`);
the identical arithmetic appears in if-stats-snmp-full.py lines 197-223,
if-stats-snmp-v3.py lines 127-142 and stats-if-snmp.py lines 52-59.  Starts
from the zero rate; when the previous sample is present (and its float
timestamp nonzero, see header note on Python truthiness) and `dt > 0`,
computes `int(diff * 8 / dt)` per direction with a signed diff and no
clamping.  The state attributes are then assigned the current sample and
timestamp unconditionally, on every path. -/
def calculate_traffic_rate (st : Option (Stats × ℚ)) (current_stats : Stats)
    (current_time : ℚ) : Rate × Option (Stats × ℚ) :=
  let rate : Rate :=
    match st with
    | none => { inBps := 0, outBps := 0 }
    | some (prev, pt) =>
      if pt = 0 then { inBps := 0, outBps := 0 }
      else
        if 0 < current_time - pt then
          { inBps := ratTrunc (((((current_stats.inOctets : ℤ) - (prev.inOctets : ℤ)) * 8 : ℤ) :
               ℚ) / (current_time - pt))
            outBps := ratTrunc (((((current_stats.outOctets : ℤ) - (prev.outOctets : ℤ)) * 8 :
               ℤ) : ℚ) / (current_time - pt)) }
        else { inBps := 0, outBps := 0 }
  (rate, some (current_stats, current_time))

/-- Stats dict serialized into the envelope: each value is the decimal
string already held in the Python dict, hence a JSON string. -/
def statsValues (s : Stats) : List (String × JsonVal) :=
  [("in-octets", JsonVal.str (decRepr s.inOctets)),
   ("out-octets", JsonVal.str (decRepr s.outOctets)),
   ("in-unicast-packets", JsonVal.str (decRepr s.inUnicastPackets)),
   ("in-multicast-packets", JsonVal.str (decRepr s.inMulticastPackets)),
   ("in-broadcast-packets", JsonVal.str (decRepr s.inBroadcastPackets)),
   ("out-unicast-packets", JsonVal.str (decRepr s.outUnicastPackets)),
   ("out-multicast-packets", JsonVal.str (decRepr s.outMulticastPackets)),
   ("out-broadcast-packets", JsonVal.str (decRepr s.outBroadcastPackets)),
   ("in-packets", JsonVal.str (decRepr s.inPackets)),
   ("out-packets", JsonVal.str (decRepr s.outPackets))]

/-- Decimal rendering of a possibly negative bps value (Python `str(int)`). -/
def intRepr (z : ℤ) : String :=
  if z < 0 then "-" ++ decRepr z.natAbs else decRepr z.natAbs

/-- Rate dict serialized into the envelope. -/
def rateValues (r : Rate) : List (String × JsonVal) :=
  [("in-bps", JsonVal.str (intRepr r.inBps)),
   ("out-bps", JsonVal.str (intRepr r.outBps))]

/-- Lines 123-134 (`format_output`): the gNMI-style envelope; the timestamp
is `int(timestamp * 1e9)` and the interface index 2 is interpolated into the
path strings. -/
def format_output (stats_type : String) (data : List (String × JsonVal))
    (timestamp : ℚ) : TelemetryRecord :=
  { source := "172.100.100.5"
    subscriptionName := "snmp-if-stats"
    timestamp := ratTrunc (timestamp * 1000000000)
    path := "IF-MIB:interface[index=" ++ decRepr 2 ++ "]/" ++ stats_type
    valuesKey := "IF-MIB:interface/" ++ stats_type
    values := data }

/-- Body of one iteration of `monitor` (lines 146-156): one wall-clock
reading `now`, one resolver call, one rate computation, then a `statistics`
record and a `traffic-rate` record dumped in that order, both stamped with
the same `now`. -/
def cycle (g : String → ℕ) (st : Option (Stats × ℚ)) (now : ℚ) :
    List TelemetryRecord × Option (Stats × ℚ) :=
  let stats := (get_interface_stats g).1
  let res := calculate_traffic_rate st stats now
  ([format_output "statistics" (statsValues stats) now,
    format_output "traffic-rate" (rateValues res.1) now], res.2)

end SnmpV2

/-- Counter sample of the NETCONF scripts: the `stats` dict assembled by the
OpenConfig / IETF parsers and by the no-data fallback.  Python dicts carry
only the keys a branch sets; downstream reads use `stats.get(key, '0')`, so
a key a parser does not set is modelled as the value `0` here.  `model`
records provenance (`"openconfig"`, `"ietf"`, `"no-data"`). -/
structure NStats where
  interfaceName : String
  model : String
  inOctets : ℕ
  outOctets : ℕ
  inUnicastPkts : ℕ
  outUnicastPkts : ℕ
  inMulticastPkts : ℕ
  outMulticastPkts : ℕ
  inBroadcastPkts : ℕ
  outBroadcastPkts : ℕ
  inErrors : ℕ
  outErrors : ℕ
  inDiscards : ℕ
  outDiscards : ℕ
  inPackets : ℕ
  outPackets : ℕ
deriving DecidableEq

namespace NetconfFull

/-! Embedding of src/configs/if-stats-netconf.py (class `AristaNETCONFMonitor`),
the variant whose resolver re-checks the OpenConfig sample's octet value.
The two adapter calls (`get_interface_stats_openconfig` /
`get_interface_stats_ietf`) are modelled by their results: `Option NStats`,
`none` when the fetch or its parse declined (every failure path of the
source returns `None`). -/

/-- Lines 252-261: the zero-filled fallback dict built when both adapters
decline. -/
def no_data_stats : NStats :=
  { interfaceName := "Ethernet1", model := "no-data", inOctets := 0, outOctets := 0,
    inUnicastPkts := 0, outUnicastPkts := 0, inMulticastPkts := 0, outMulticastPkts := 0,
    inBroadcastPkts := 0, outBroadcastPkts := 0, inErrors := 0, outErrors := 0,
    inDiscards := 0, outDiscards := 0, inPackets := 0, outPackets := 0 }

/-- Lines 243-263 (`get_interface_stats`): try OpenConfig; if it returned
nothing or its `in-octets` parses to zero (`int(stats.get('in-octets', 0))
== 0` — only the in direction is consulted), try IETF; if still nothing,
return the zero-filled no-data dict.  The second component instruments the
embedding with whether the IETF adapter was invoked. -/
def get_interface_stats (oc ietf : Option NStats) : NStats × Bool :=
  let ietfInvoked : Bool :=
    match oc with
    | none => true
    | some s => s.inOctets == 0
  match (if ietfInvoked then ietf else oc) with
  | some s => (s, ietfInvoked)
  | none => (no_data_stats, ietfInvoked)

end NetconfFull

namespace NetconfV2

/-! Embedding of src/configs/if-stats-netconf-v2.py (class
`AristaNETCONFMonitor`, slim variant).  An XML reply is modelled by
`Option (String → ℕ)`: `some v` gives the numeric value of each counter
leaf (the source's local `val(tag)` helper, which already degrades a
missing element or empty node to `"0"`), and `none` stands for a reply on
which the parser's element lookups raise (caught by the parser's
`try`/`except`, which then returns `None`). -/

/-- Lines 117-161 (`parse_openconfig_stats`): extracts the OpenConfig
counter leaves and recomputes both packet totals from the three per-class
sub-counts. -/
def parse_openconfig_stats (xml : Option (String → ℕ)) : Option NStats :=
  match xml with
  | none => none
  | some v =>
    some { interfaceName := "Ethernet1", model := "openconfig",
           inOctets := v "in-octets", outOctets := v "out-octets",
           inUnicastPkts := v "in-unicast-pkts", outUnicastPkts := v "out-unicast-pkts",
           inMulticastPkts := v "in-multicast-pkts", outMulticastPkts := v "out-multicast-pkts",
           inBroadcastPkts := v "in-broadcast-pkts", outBroadcastPkts := v "out-broadcast-pkts",
           inErrors := v "in-errors", outErrors := v "out-errors",
           inDiscards := v "in-discards", outDiscards := v "out-discards",
           inPackets := v "in-unicast-pkts" + v "in-multicast-pkts" + v "in-broadcast-pkts",
           outPackets := v "out-unicast-pkts" + v "out-multicast-pkts" + v "out-broadcast-pkts" }

/-- Lines 166-188 (`parse_ietf_stats`): the IETF fallback parser.  Its dict
carries only name, model, the two octet counters, and packet totals that
are copies of the unicast leaves: `"in-packets": val("in-unicast-pkts")`
and `"out-packets": val("out-unicast-pkts")`.  No per-class sub-count is
stored (hence 0 under the `.get` default modelling). -/
def parse_ietf_stats (xml : Option (String → ℕ)) : Option NStats :=
  match xml with
  | none => none
  | some v =>
    some { interfaceName := "Ethernet1", model := "ietf",
           inOctets := v "in-octets", outOctets := v "out-octets",
           inUnicastPkts := 0, outUnicastPkts := 0,
           inMulticastPkts := 0, outMulticastPkts := 0,
           inBroadcastPkts := 0, outBroadcastPkts := 0,
           inErrors := 0, outErrors := 0, inDiscards := 0, outDiscards := 0,
           inPackets := v "in-unicast-pkts", outPackets := v "out-unicast-pkts" }

/-- Lines 103-111: the zero-filled fallback dict (keys `interface-name`,
`model`, the octet counters and packet totals). -/
def no_data_stats : NStats :=
  { interfaceName := "Ethernet1", model := "no-data", inOctets := 0, outOctets := 0,
    inUnicastPkts := 0, outUnicastPkts := 0, inMulticastPkts := 0, outMulticastPkts := 0,
    inBroadcastPkts := 0, outBroadcastPkts := 0, inErrors := 0, outErrors := 0,
    inDiscards := 0, outDiscards := 0, inPackets := 0, outPackets := 0 }

/-- Lines 98-112 (`get_interface_stats`): OpenConfig first; IETF only when
OpenConfig returned nothing (`if not stats:` — no octet-value re-check in
this variant); the no-data dict when both declined. -/
def get_interface_stats (oc ietf : Option NStats) : NStats :=
  match oc with
  | some s => s
  | none =>
    match ietf with
    | some s => s
    | none => no_data_stats

/-- Lines 193-209 (`calculate_traffic_rate(self, stats)`): same arithmetic
as the SNMP variant, guarded only by `if self.prev_time:` (the two state
attributes are always assigned together, lines 207-208, so the pair model
applies); the source reads `time.time()` itself, modelled by the `now`
parameter; state is overwritten unconditionally. -/
def calculate_traffic_rate (st : Option (NStats × ℚ)) (stats : NStats) (now : ℚ) :
    Rate × Option (NStats × ℚ) :=
  let rate : Rate :=
    match st with
    | none => { inBps := 0, outBps := 0 }
    | some (prev, pt) =>
      if pt = 0 then { inBps := 0, outBps := 0 }
      else
        if 0 < now - pt then
          { inBps := ratTrunc (((((stats.inOctets : ℤ) - (prev.inOctets : ℤ)) * 8 : ℤ) : ℚ) /
               (now - pt))
            outBps := ratTrunc (((((stats.outOctets : ℤ) - (prev.outOctets : ℤ)) * 8 : ℤ) : ℚ) /
               (now - pt)) }
        else { inBps := 0, outBps := 0 }
  (rate, some (stats, now))

/-- Single JSON line emitted per cycle by `monitor` (lines 223-238). -/
structure V2Record where
  timestamp : ℤ
  interfaceName : String
  model : String
  stats : NStats
  rate : Rate
deriving DecidableEq

/-- Body of one iteration of `monitor` (lines 223-238): reads `ts`, resolves
a sample, computes the rate (which reads the clock again — `tRate`), and
always dumps exactly one record.  The emission list makes "how many records
this cycle wrote" a statement the theorems can quantify over. -/
def cycle (oc ietf : Option NStats) (st : Option (NStats × ℚ)) (ts tRate : ℚ) :
    List V2Record × Option (NStats × ℚ) :=
  let stats := get_interface_stats oc ietf
  let res := calculate_traffic_rate st stats tRate
  ([{ timestamp := ratTrunc (ts * 1000000000), interfaceName := "Ethernet1",
      model := stats.model, stats := stats, rate := res.1 }], res.2)

end NetconfV2

/-- Exception classes relevant to the adapters: `easySnmp` stands for
`EasySNMPError` (every transport-level error of the easysnmp library),
`other` for any other `Exception` an underlying call may raise. -/
inductive PyErr where
  | easySnmp
  | other
deriving DecidableEq

/-- Behaviour of one `self.session.get(oid)` call: a reply object carrying a
string value, or an exception of either class. -/
inductive SnmpResp where
  | result (value : String)
  | raises (e : PyErr)
deriving DecidableEq

namespace SnmpV2

/-- Lines 52-63 of if-stats-snmp-v2.py (`get_snmp_value`): returns the value
unless it is the NOSUCHINSTANCE sentinel; `except EasySNMPError: pass` and a
generic `except Exception` (which prints) both fall through to `return "0"`,
so no exception class escapes. -/
def get_snmp_value (resp : SnmpResp) : Except PyErr String :=
  match resp with
  | .result v => if v ≠ "NOSUCHINSTANCE" then .ok v else .ok "0"
  | .raises _ => .ok "0"

end SnmpV2

namespace SnmpV3

/-- Lines 54-63 of if-stats-snmp-v3.py (`get_snmp_value`): same shape, but
the only handler is `except EasySNMPError: pass` — an exception of any
other class propagates to the caller. -/
def get_snmp_value (resp : SnmpResp) : Except PyErr String :=
  match resp with
  | .result v =>
    if v ≠ "NOSUCHINSTANCE" ∧ v ≠ "NOSUCHOBJECT" then .ok v else .ok "0"
  | .raises .easySnmp => .ok "0"
  | .raises .other => .error .other

end SnmpV3

namespace NetconfV2

/-- Lines 59-78 of if-stats-netconf-v2.py (`get_interface_stats_openconfig`):
the NETCONF get and the parse run under `except Exception`, which prints and
returns `None`; a normal reply is handed to `parse_openconfig_stats`. -/
def get_interface_stats_openconfig (reply : Except PyErr (Option (String → ℕ))) :
    Except PyErr (Option NStats) :=
  match reply with
  | .error _ => .ok none
  | .ok xml => .ok (parse_openconfig_stats xml)

end NetconfV2

/-- Counter sample with the given octet values and zero packet-class
counters, for concrete evaluations. -/
def mkStats (i o : ℕ) : Stats :=
  { inOctets := i, outOctets := o, inUnicastPackets := 0, inMulticastPackets := 0,
    inBroadcastPackets := 0, outUnicastPackets := 0, outMulticastPackets := 0,
    outBroadcastPackets := 0, inPackets := 0, outPackets := 0 }

/-- C1: at the spec's counter-regression example (`prev.inOctets = 5000`,
`curr.inOctets = 100`, `dt = 5`) the code reports `in-bps = -7840` — the
signed truncation of `(100 - 5000) * 8 / 5` — instead of the clamped zero
the claim requires; the PollState half of the claim does hold: the state
afterward is the current sample.  (Symmetrically for the out direction.) -/
theorem counter_regression_not_clamped :
    (SnmpV2.calculate_traffic_rate (some (mkStats 5000 5000, 5)) (mkStats 100 100) 10).1 =
      { inBps := -7840, outBps := -7840 } ∧
    (SnmpV2.calculate_traffic_rate (some (mkStats 5000 5000, 5)) (mkStats 100 100) 10).2 =
      some (mkStats 100 100, 10) := by
  constructor
  · simp only [SnmpV2.calculate_traffic_rate, mkStats]
    norm_num
    all_goals exact ratTrunc_eq_of_eq_intCast _ _ (by norm_num)
  · rfl

/-- C2 counterexample: with a previous sample at timestamp 5 and a re-poll
at the same timestamp (`dt = 0`), the call does not leave PollState
unchanged — it returns the zero rate dict (not `None`) and overwrites the
state with the current sample. -/
theorem zero_dt_overwrites_state :
    (SnmpV2.calculate_traffic_rate (some (mkStats 1000 1000, 5)) (mkStats 2000 2000) 5).1 =
      { inBps := 0, outBps := 0 } ∧
    (SnmpV2.calculate_traffic_rate (some (mkStats 1000 1000, 5)) (mkStats 2000 2000) 5).2 ≠
      some (mkStats 1000 1000, 5) := by
  constructor
  · simp only [SnmpV2.calculate_traffic_rate]
    norm_num
  · decide

/-- C2 amended: with a previous sample and `dt ≤ 0`, `calculate_traffic_rate`
returns the zero rate (`in-bps = out-bps = 0`, the dict it was initialized
with — not `None`) and unconditionally overwrites PollState with the current
sample and the current timestamp. -/
theorem nonpositive_dt_zero_rate_state_overwritten (prev : Stats) (pt : ℚ) (cur : Stats)
    (now : ℚ) (h : now ≤ pt) :
    SnmpV2.calculate_traffic_rate (some (prev, pt)) cur now =
      ({ inBps := 0, outBps := 0 }, some (cur, now)) := by
  simp only [SnmpV2.calculate_traffic_rate]
  have hdt : ¬(0 < now - pt) := by linarith
  by_cases hpt : pt = 0
  · rw [if_pos hpt]
  · rw [if_neg hpt, if_neg hdt]

/-- C2 amended, witness at a concrete re-poll with `dt = 0`. -/
theorem nonpositive_dt_witness :
    SnmpV2.calculate_traffic_rate (some (mkStats 300 300, 5)) (mkStats 900 900) 5 =
      ({ inBps := 0, outBps := 0 }, some (mkStats 900 900, 5)) :=
  nonpositive_dt_zero_rate_state_overwritten (mkStats 300 300) 5 (mkStats 900 900) 5 (le_refl 5)

/-- C3 counterexample: on the very first cycle (empty PollState) the monitor
still emits a `traffic-rate` record — the first call returns the zero rate
dict rather than `None`, and that dict is formatted and written alongside
the `statistics` record. -/
theorem first_cycle_emits_rate_record :
    ((SnmpV2.cycle (fun _ => 7) none 1).1.map fun r => r.path) =
      ["IF-MIB:interface[index=2]/statistics", "IF-MIB:interface[index=2]/traffic-rate"] ∧
    (SnmpV2.calculate_traffic_rate none (SnmpV2.get_interface_stats (fun _ => 7)).1 1).1 =
      { inBps := 0, outBps := 0 } := by
  constructor
  · decide
  · rfl

/-- C3 amended: the first call for an interface records the sample and
returns the zero rate (which the monitor also emits); the second call with
`dt > 0` returns the rate computed from the octet deltas. -/
theorem first_sample_zero_rate_then_second_computes (c1 c2 : Stats) (t1 t2 : ℚ)
    (h1 : t1 ≠ 0) (h2 : t1 < t2) :
    SnmpV2.calculate_traffic_rate none c1 t1 = ({ inBps := 0, outBps := 0 }, some (c1, t1)) ∧
    (SnmpV2.calculate_traffic_rate (some (c1, t1)) c2 t2).1 =
      { inBps := ratTrunc (((((c2.inOctets : ℤ) - (c1.inOctets : ℤ)) * 8 : ℤ) : ℚ) / (t2 - t1)),
        outBps :=
          ratTrunc (((((c2.outOctets : ℤ) - (c1.outOctets : ℤ)) * 8 : ℤ) : ℚ) / (t2 - t1)) } := by
  refine ⟨rfl, ?_⟩
  have hdt : 0 < t2 - t1 := by linarith
  simp only [SnmpV2.calculate_traffic_rate, if_neg h1, if_pos hdt]

/-- C3 amended, witness: octets 0 then 8000 five seconds apart give the zero
rate then 12800 bps. -/
theorem first_then_second_witness :
    SnmpV2.calculate_traffic_rate none (mkStats 0 0) 5 =
      ({ inBps := 0, outBps := 0 }, some (mkStats 0 0, 5)) ∧
    (SnmpV2.calculate_traffic_rate (some (mkStats 0 0, 5)) (mkStats 8000 8000) 10).1 =
      { inBps := 12800, outBps := 12800 } := by
  have h := first_sample_zero_rate_then_second_computes (mkStats 0 0) (mkStats 8000 8000) 5 10
    (by norm_num) (by norm_num)
  refine ⟨h.1, ?_⟩
  rw [h.2]
  norm_num [mkStats]
  all_goals exact ratTrunc_eq_of_eq_intCast _ _ (by norm_num)

/-- C6: with a valid predecessor (nonzero previous timestamp), `dt > 0` and
non-negative octet deltas, the reported rate is `delta * 8 / dt` rounded
toward zero to an integer — equal to the floor of the exact quotient, the
quotient being non-negative. -/
theorem rate_is_truncated_delta_over_dt (prev cur : Stats) (pt now : ℚ) (hpt : pt ≠ 0)
    (hdt : 0 < now - pt) (hin : prev.inOctets ≤ cur.inOctets)
    (hout : prev.outOctets ≤ cur.outOctets) :
    (SnmpV2.calculate_traffic_rate (some (prev, pt)) cur now).1 =
      { inBps := ⌊((((cur.inOctets - prev.inOctets) * 8 : ℕ) : ℚ) / (now - pt))⌋,
        outBps := ⌊((((cur.outOctets - prev.outOctets) * 8 : ℕ) : ℚ) / (now - pt))⌋ } := by
  simp only [SnmpV2.calculate_traffic_rate, if_neg hpt, if_pos hdt]
  have e1 : ((((cur.inOctets : ℤ) - (prev.inOctets : ℤ)) * 8 : ℤ) : ℚ) =
      (((cur.inOctets - prev.inOctets) * 8 : ℕ) : ℚ) := by
    push_cast [hin]
    ring
  have e2 : ((((cur.outOctets : ℤ) - (prev.outOctets : ℤ)) * 8 : ℤ) : ℚ) =
      (((cur.outOctets - prev.outOctets) * 8 : ℕ) : ℚ) := by
    push_cast [hout]
    ring
  rw [e1, e2, Rate.mk.injEq]
  constructor <;>
    exact ratTrunc_eq_floor_of_nonneg _ (div_nonneg (by positivity) (le_of_lt hdt))

/-- OpenConfig sample that is not Empty under the claim's definition (its
octet counters are not both zero) but whose `in-octets` is zero. -/
def ocInZeroOutNonzero : NStats :=
  { NetconfFull.no_data_stats with model := "openconfig", outOctets := 500 }

/-- C4 counterexample: handed this non-Empty OpenConfig sample, the
if-stats-netconf.py resolver still invokes the IETF adapter, because its
fallback test `int(stats.get('in-octets', 0)) == 0` looks only at the in
direction. -/
theorem ietf_invoked_despite_nonempty_openconfig :
    (NetconfFull.get_interface_stats (some ocInZeroOutNonzero) none).2 = true ∧
    ¬(ocInZeroOutNonzero.inOctets = 0 ∧ ocInZeroOutNonzero.outOctets = 0) := by
  exact ⟨rfl, by decide⟩

/-- C4 amended: the SNMP legacy 32-bit octet OID is read iff both
high-capacity octet reads are zero (the claimed SNMP fallback condition
holds); the NETCONF-IETF adapter of if-stats-netconf.py is invoked iff
OpenConfig returned no sample or a sample whose `in-octets` is zero — the
out direction is not consulted. -/
theorem fallback_invocation_conditions (g : String → ℕ) (oc ietf : Option NStats) :
    (SnmpV2.oid_ifInOctets ∈ (SnmpV2.get_interface_stats g).2 ↔
      g SnmpV2.oid_ifHCInOctets = 0 ∧ g SnmpV2.oid_ifHCOutOctets = 0) ∧
    ((NetconfFull.get_interface_stats oc ietf).2 = true ↔
      oc = none ∨ ∃ s, oc = some s ∧ s.inOctets = 0) := by
  constructor
  · by_cases hc : g SnmpV2.oid_ifHCInOctets = 0 ∧ g SnmpV2.oid_ifHCOutOctets = 0
    · have hcond : ¬(g SnmpV2.oid_ifHCInOctets ≠ 0 ∨ g SnmpV2.oid_ifHCOutOctets ≠ 0) := by
        push_neg
        exact hc
      rw [SnmpV2.get_interface_stats, if_neg hcond]
      refine ⟨fun _ => hc, fun _ => ?_⟩
      show SnmpV2.oid_ifInOctets ∈ [SnmpV2.oid_ifHCInOctets, SnmpV2.oid_ifHCOutOctets,
        SnmpV2.oid_ifInOctets, SnmpV2.oid_ifOutOctets, SnmpV2.oid_ifInUcastPkts,
        SnmpV2.oid_ifInMulticastPkts, SnmpV2.oid_ifInBroadcastPkts, SnmpV2.oid_ifOutUcastPkts,
        SnmpV2.oid_ifOutMulticastPkts, SnmpV2.oid_ifOutBroadcastPkts]
      decide
    · have hcond : g SnmpV2.oid_ifHCInOctets ≠ 0 ∨ g SnmpV2.oid_ifHCOutOctets ≠ 0 :=
        not_and_or.mp hc
      rw [SnmpV2.get_interface_stats, if_pos hcond]
      refine ⟨fun hm => ?_, fun h => absurd h hc⟩
      have hno : SnmpV2.oid_ifInOctets ∉ [SnmpV2.oid_ifHCInOctets, SnmpV2.oid_ifHCOutOctets,
          SnmpV2.oid_ifHCInUcastPkts, SnmpV2.oid_ifHCInMulticastPkts,
          SnmpV2.oid_ifHCInBroadcastPkts, SnmpV2.oid_ifHCOutUcastPkts,
          SnmpV2.oid_ifHCOutMulticastPkts, SnmpV2.oid_ifHCOutBroadcastPkts] := by decide
      exact absurd hm hno
  · match oc with
    | none =>
      cases ietf <;> simp [NetconfFull.get_interface_stats]
    | some s =>
      by_cases hz : s.inOctets = 0
      · have hb : (s.inOctets == 0) = true := beq_iff_eq.mpr hz
        cases ietf <;>
          simp [NetconfFull.get_interface_stats, hb, hz]
      · have hb : (s.inOctets == 0) = false := by
          simpa using hz
        cases ietf <;>
          simp [NetconfFull.get_interface_stats, hb, hz]

/-- IETF reply whose packet-class leaves are 10 unicast, 5 multicast and
2 broadcast. -/
def ietfLeafValues : String → ℕ := fun t =>
  if t = "in-unicast-pkts" then 10
  else if t = "in-multicast-pkts" then 5
  else if t = "in-broadcast-pkts" then 2
  else 0

/-- C5 counterexample: the if-stats-netconf-v2.py IETF adapter copies the
source's `in-unicast-pkts` (10) into `in-packets`, dropping the multicast
and broadcast sub-counts, so the produced sample has `inPackets = 10` while
its own sub-counts sum to 0 and the source's sum to 17. -/
theorem ietf_total_copied_not_recomputed :
    ((NetconfV2.parse_ietf_stats (some ietfLeafValues)).map fun s =>
        (s.inPackets, s.inUnicastPkts + s.inMulticastPkts + s.inBroadcastPkts)) =
      some (10, 0) ∧
    ietfLeafValues "in-unicast-pkts" + ietfLeafValues "in-multicast-pkts" +
        ietfLeafValues "in-broadcast-pkts" = 17 ∧
    (10 : ℕ) ≠ 0 ∧ (10 : ℕ) ≠ 17 := by
  exact ⟨by decide, by decide, by decide, by decide⟩

/-- C5 amended: the packet-total invariant (totals recomputed as the sum of
the three per-class sub-counts) holds for both SNMP counter tables and for
the NETCONF-OpenConfig parser; the if-stats-netconf-v2.py NETCONF-IETF
parser instead copies the source's unicast leaves into the totals. -/
theorem packet_totals_by_adapter (g : String → ℕ) (v : String → ℕ) :
    ((SnmpV2.get_interface_stats g).1.inPackets =
        (SnmpV2.get_interface_stats g).1.inUnicastPackets +
          (SnmpV2.get_interface_stats g).1.inMulticastPackets +
          (SnmpV2.get_interface_stats g).1.inBroadcastPackets ∧
      (SnmpV2.get_interface_stats g).1.outPackets =
        (SnmpV2.get_interface_stats g).1.outUnicastPackets +
          (SnmpV2.get_interface_stats g).1.outMulticastPackets +
          (SnmpV2.get_interface_stats g).1.outBroadcastPackets) ∧
    ((NetconfV2.parse_openconfig_stats (some v)).elim True fun s =>
      s.inPackets = s.inUnicastPkts + s.inMulticastPkts + s.inBroadcastPkts ∧
      s.outPackets = s.outUnicastPkts + s.outMulticastPkts + s.outBroadcastPkts) ∧
    ((NetconfV2.parse_ietf_stats (some v)).elim True fun s =>
      s.inPackets = v "in-unicast-pkts" ∧ s.outPackets = v "out-unicast-pkts") := by
  refine ⟨?_, ⟨rfl, rfl⟩, ⟨rfl, rfl⟩⟩
  rw [SnmpV2.get_interface_stats]
  by_cases hcond : g SnmpV2.oid_ifHCInOctets ≠ 0 ∨ g SnmpV2.oid_ifHCOutOctets ≠ 0
  · rw [if_pos hcond]
    exact ⟨rfl, rfl⟩
  · rw [if_neg hcond]
    exact ⟨rfl, rfl⟩

/-- Previous sample distinct from the no-data dict, for the C7 refutation. -/
def prevSampleC7 : NStats :=
  { NetconfV2.no_data_stats with model := "openconfig", inOctets := 1234 }

/-- C7 counterexample: when both NETCONF adapters decline, the cycle does
not go quiet — it still emits one record (carrying the zero-filled no-data
sample) and replaces the per-interface PollState with that zero sample. -/
theorem no_data_cycle_emits_and_overwrites :
    (NetconfV2.cycle none none (some (prevSampleC7, 3)) 9 9).1.length = 1 ∧
    (NetconfV2.cycle none none (some (prevSampleC7, 3)) 9 9).2 ≠ some (prevSampleC7, 3) ∧
    (NetconfV2.cycle none none (some (prevSampleC7, 3)) 9 9).2 =
      some (NetconfV2.no_data_stats, 9) := by
  exact ⟨rfl, by decide, rfl⟩

/-- C7 amended: when every adapter declines, the if-stats-netconf-v2.py
resolver returns the zero-filled `no-data` sample (not an Empty result), the
monitor cycle still emits exactly one record, tagged `no-data`, and
PollState is overwritten with the zero sample and the cycle's rate
timestamp; the loop itself continues (the cycle function returns normally
for every state). -/
theorem all_adapters_declined_behaviour (st : Option (NStats × ℚ)) (ts tRate : ℚ) :
    NetconfV2.get_interface_stats none none = NetconfV2.no_data_stats ∧
    NetconfV2.no_data_stats.inOctets = 0 ∧ NetconfV2.no_data_stats.outOctets = 0 ∧
    (NetconfV2.cycle none none st ts tRate).1.length = 1 ∧
    ((NetconfV2.cycle none none st ts tRate).1.map fun r => r.model) = ["no-data"] ∧
    (NetconfV2.cycle none none st ts tRate).2 = some (NetconfV2.no_data_stats, tRate) := by
  exact ⟨rfl, rfl, rfl, rfl, rfl, rfl⟩

/-- C6 witness: `prev.inOctets = 1000`, `curr.inOctets = 2000`, `dt = 5`
gives 1600 bps. -/
theorem rate_formula_witness :
    (SnmpV2.calculate_traffic_rate (some (mkStats 1000 1000, 1)) (mkStats 2000 2000) 6).1 =
      { inBps := 1600, outBps := 1600 } := by
  have h := rate_is_truncated_delta_over_dt (mkStats 1000 1000) (mkStats 2000 2000) 1 6
    (by norm_num) (by norm_num) (by decide) (by decide)
  rw [h]
  norm_num [mkStats]

/-- C8: an envelope built from a counter sample stores every counter field
as a JSON string (never a native JSON number — contrast the envelope's
`timestamp`, which is an integer field); each string is the decimal
rendering of the field's value, and a generic reader recovers the exact
value from that string — including unsigned 64-bit magnitudes beyond 2^53,
witnessed by `2^64 - 1`.  (The JSON-lines writer and reader themselves are
the Python standard library, external to the scripts; they transport a dict
of strings faithfully, so the model states the round trip at the level of
the envelope's field mapping.) -/
theorem envelope_fields_exact_decimal_strings (s : Stats) (ts : ℚ) :
    (((SnmpV2.format_output "statistics" (SnmpV2.statsValues s) ts).values.all fun kv =>
        match kv.2 with
        | JsonVal.str _ => true
        | JsonVal.num _ => false) = true) ∧
    (SnmpV2.format_output "statistics" (SnmpV2.statsValues s) ts).values.lookup "in-octets" =
      some (JsonVal.str (decRepr s.inOctets)) ∧
    (SnmpV2.format_output "statistics" (SnmpV2.statsValues s) ts).values.lookup "out-octets" =
      some (JsonVal.str (decRepr s.outOctets)) ∧
    (SnmpV2.format_output "statistics" (SnmpV2.statsValues s) ts).values.lookup
        "in-unicast-packets" = some (JsonVal.str (decRepr s.inUnicastPackets)) ∧
    (SnmpV2.format_output "statistics" (SnmpV2.statsValues s) ts).values.lookup
        "in-multicast-packets" = some (JsonVal.str (decRepr s.inMulticastPackets)) ∧
    (SnmpV2.format_output "statistics" (SnmpV2.statsValues s) ts).values.lookup
        "in-broadcast-packets" = some (JsonVal.str (decRepr s.inBroadcastPackets)) ∧
    (SnmpV2.format_output "statistics" (SnmpV2.statsValues s) ts).values.lookup
        "out-unicast-packets" = some (JsonVal.str (decRepr s.outUnicastPackets)) ∧
    (SnmpV2.format_output "statistics" (SnmpV2.statsValues s) ts).values.lookup
        "out-multicast-packets" = some (JsonVal.str (decRepr s.outMulticastPackets)) ∧
    (SnmpV2.format_output "statistics" (SnmpV2.statsValues s) ts).values.lookup
        "out-broadcast-packets" = some (JsonVal.str (decRepr s.outBroadcastPackets)) ∧
    (SnmpV2.format_output "statistics" (SnmpV2.statsValues s) ts).values.lookup "in-packets" =
      some (JsonVal.str (decRepr s.inPackets)) ∧
    (SnmpV2.format_output "statistics" (SnmpV2.statsValues s) ts).values.lookup "out-packets" =
      some (JsonVal.str (decRepr s.outPackets)) ∧
    (∀ n : ℕ, decToNat? (decRepr n) = some n) ∧
    decToNat? (decRepr (2 ^ 64 - 1)) = some (2 ^ 64 - 1) ∧ (2 ^ 53 : ℕ) < 2 ^ 64 - 1 := by
  refine ⟨rfl, rfl, rfl, rfl, rfl, rfl, rfl, rfl, rfl, rfl, rfl,
    fun n => decToNat?_decRepr n, decToNat?_decRepr _, by norm_num⟩

/-- C9 counterexample: a session error that is not an `EasySNMPError` is
not caught by the if-stats-snmp-v3.py fetch helper (its only handler is
`except EasySNMPError: pass`) — the exception propagates to the caller
instead of degrading to a value. -/
theorem v3_fetch_propagates_other_errors :
    SnmpV3.get_snmp_value (SnmpResp.raises PyErr.other) = Except.error PyErr.other := rfl

/-- C9 amended: the if-stats-snmp-v2.py fetch helper and the
if-stats-netconf-v2.py OpenConfig fetch catch every exception class, so for
every session behaviour they return a value or a declined result, never an
error; the if-stats-snmp-v3.py helper is total only on behaviours whose
errors are transport-level (`EasySNMPError`) — any other exception class
escapes it. -/
theorem adapter_fetch_totality (r : SnmpResp) (reply : Except PyErr (Option (String → ℕ))) :
    ((SnmpV2.get_snmp_value r).isOk = true) ∧
    ((NetconfV2.get_interface_stats_openconfig reply).isOk = true) ∧
    (∀ r2 : SnmpResp, r2 ≠ SnmpResp.raises PyErr.other →
      (SnmpV3.get_snmp_value r2).isOk = true) := by
  refine ⟨?_, ?_, ?_⟩
  · cases r with
    | result v =>
      simp only [SnmpV2.get_snmp_value]
      split <;> rfl
    | raises e => rfl
  · cases reply with
    | error e => rfl
    | ok xml => rfl
  · intro r2 h2
    match r2, h2 with
    | .result v, _ =>
      simp only [SnmpV3.get_snmp_value]
      split <;> rfl
    | .raises .easySnmp, _ => rfl
    | .raises .other, h2 => exact absurd rfl h2

/-- C9 amended, witness: a raising behaviour handled by the v2 helper, a
raising reply handled by the NETCONF fetch, and a plain value through the
v3 helper. -/
theorem adapter_fetch_totality_witness :
    (SnmpV2.get_snmp_value (SnmpResp.raises PyErr.other)).isOk = true ∧
    (NetconfV2.get_interface_stats_openconfig (Except.error PyErr.easySnmp)).isOk = true ∧
    (SnmpV3.get_snmp_value (SnmpResp.result "5")).isOk = true := by
  have h := adapter_fetch_totality (SnmpResp.raises PyErr.other) (Except.error PyErr.easySnmp)
  exact ⟨h.1, h.2.1, h.2.2 (SnmpResp.result "5") (by decide)⟩

/-- C10: every monitor cycle of if-stats-snmp-v2.py — including the very
first, since the PollState is arbitrary here — writes exactly two records,
the `statistics` record first and the `traffic-rate` record second, and
both carry the same timestamp `int(now * 1e9)` taken from the single
wall-clock reading at the start of the cycle. -/
theorem cycle_emits_statistics_then_rate (g : String → ℕ) (st : Option (Stats × ℚ))
    (now : ℚ) :
    ((SnmpV2.cycle g st now).1.map fun r => r.path) =
      ["IF-MIB:interface[index=2]/statistics", "IF-MIB:interface[index=2]/traffic-rate"] ∧
    ((SnmpV2.cycle g st now).1.map fun r => r.timestamp) =
      [ratTrunc (now * 1000000000), ratTrunc (now * 1000000000)] := by
  exact ⟨rfl, rfl⟩

end IfStats
